import Mathlib

/-!
Verification development for the google-meet-ai-agent repository.

Shallow embedding of:
* the cascading text-to-speech pipeline of `src/improved-generate-tts.js`
  (`generateUniqueFilename`, `generateTTS`, `platformSpecificTTS`, `playSound`),
* the standalone near-duplicate driver (`src/unnamed/part_000`:
  its `playSound`, `platformSpecificTTS` call sites and `clearOldTempFiles`),
* the main script of `src/README.md` (`synthesizeSpeech` naming and cleanup,
  `speakAndDo`, and the four-tier `keepMeetingAlive` orchestrator).

Effectful JavaScript is modelled as pure functions that return, next to the
ordinary result, the list of observable effects the code performs, or as
explicit step relations where the claim is about interleaving or about the
evolution of mutable state over time.
-/

/-- Host platform, read from process.platform; fixed for the whole process. -/
inductive HostOS
  | win32
  | darwin
  | linux
deriving DecidableEq

/-- The synthesis providers of `generateTTS` in declared priority order:
the remote OpenAI API, the local node-say engine, the platform fallback. -/
inductive Provider
  | openai
  | say
  | platform
deriving DecidableEq

/-- Observable effects of one `generateTTS` call (src/improved-generate-tts.js).
`copyFile` is fs.copy: the source file is retained (a copy, never a move). -/
inductive TTSEv
  | writeFile (p : String)
  | play (p : String) (silent : Bool)
  | copyFile (src dest : String)
  | logCopyError
  | logProviderError (p : Provider)
  | mshtaSpeak
deriving DecidableEq

/-- Environment of one `generateTTS` call: which providers are configured
and whether each of their underlying engines would succeed, whether the
fs.copy to the caller-supplied output path would succeed, the caller
arguments, and the two unique temp paths drawn from the naming service. -/
structure TTSEnv where
  os : HostOS
  openaiConfigured : Bool
  openaiOk : Bool
  sayAvailable : Bool
  sayOk : Bool
  platformEngineOk : Bool
  copyOk : Bool
  silentPlay : Bool
  outputPath : Option String
  mp3Path : String
  wavPath : String
deriving DecidableEq

/-- Result of the chain: the boolean the promise resolves with, the providers
attempted in order, the emitted effects, and the files that exist afterwards. -/
structure ChainResult where
  ok : Bool
  tried : List Provider
  events : List TTSEv
  files : List String
deriving DecidableEq

/-- JS `outputPath.replace(/\.wav$/, '.mp3')` of src/improved-generate-tts.js
line 78: a trailing ".wav" is replaced by ".mp3", anything else unchanged. -/
def jsReplaceWavExt (s : String) : String :=
  if s.data.reverse.take 4 = ['v', 'a', 'w', '.'] then
    String.mk (s.data.take (s.data.length - 4) ++ ".mp3".data)
  else s

/-- platformSpecificTTS (src/improved-generate-tts.js lines 131-228): the
chain calls it with outputPath = the unique wav path and finalOutputPath =
the caller path if supplied, else that same wav path.  On engine success the
wav is written, copied to finalOutputPath when different (copy failure only
logged), played; resolves true.  On engine failure it resolves false (on
Windows after additionally attempting the file-less mshta speech). -/
def platformSpecificTTS (env : TTSEnv) : ChainResult :=
  if env.platformEngineOk then
    { ok := true
      tried := [Provider.platform]
      events := [TTSEv.writeFile env.wavPath] ++
        (if env.outputPath.getD env.wavPath ≠ env.wavPath then
          TTSEv.copyFile env.wavPath (env.outputPath.getD env.wavPath) ::
            (if env.copyOk then [] else [TTSEv.logCopyError])
        else []) ++ [TTSEv.play env.wavPath env.silentPlay]
      files := env.wavPath ::
        (if env.outputPath.getD env.wavPath ≠ env.wavPath ∧ env.copyOk then
          [env.outputPath.getD env.wavPath] else []) }
  else
    { ok := false
      tried := [Provider.platform]
      events := TTSEv.logProviderError Provider.platform ::
        (if env.os = HostOS.win32 then [TTSEv.mshtaSpeak] else [])
      files := [] }

/-- Copy effects of the node-say success branch (lines 102-106): copy only
when an output path was supplied and differs from the unique wav path. -/
def sayCopyEvents (env : TTSEnv) : List TTSEv :=
  match env.outputPath with
  | some out =>
      if out ≠ env.wavPath then
        TTSEv.copyFile env.wavPath out :: (if env.copyOk then [] else [TTSEv.logCopyError])
      else []
  | none => []

/-- Files added by the node-say success branch copy. -/
def sayCopiedFiles (env : TTSEnv) : List String :=
  match env.outputPath with
  | some out => if out ≠ env.wavPath ∧ env.copyOk then [out] else []
  | none => []

/-- The say stage of generateTTS (lines 90-120): if node-say is available,
export; on export failure fall through to platformSpecificTTS; if node-say
is unavailable go to platformSpecificTTS directly.  `tried0`, `evs0` carry
what the already-failed earlier stage attempted and logged. -/
def sayStage (env : TTSEnv) (tried0 : List Provider) (evs0 : List TTSEv) : ChainResult :=
  if env.sayAvailable then
    if env.sayOk then
      { ok := true
        tried := tried0 ++ [Provider.say]
        events := evs0 ++ [TTSEv.writeFile env.wavPath] ++ sayCopyEvents env ++
          [TTSEv.play env.wavPath env.silentPlay]
        files := env.wavPath :: sayCopiedFiles env }
    else
      { ok := (platformSpecificTTS env).ok
        tried := tried0 ++ Provider.say :: (platformSpecificTTS env).tried
        events := evs0 ++ TTSEv.logProviderError Provider.say :: (platformSpecificTTS env).events
        files := (platformSpecificTTS env).files }
  else
    { ok := (platformSpecificTTS env).ok
      tried := tried0 ++ (platformSpecificTTS env).tried
      events := evs0 ++ (platformSpecificTTS env).events
      files := (platformSpecificTTS env).files }

/-- Copy effects of the OpenAI success branch (lines 76-82): copy whenever an
output path was supplied, to the path with a trailing .wav rewritten to .mp3;
a copy failure is caught and logged. -/
def openaiCopyEvents (env : TTSEnv) : List TTSEv :=
  match env.outputPath with
  | some out =>
      TTSEv.copyFile env.mp3Path (jsReplaceWavExt out) ::
        (if env.copyOk then [] else [TTSEv.logCopyError])
  | none => []

/-- Files added by the OpenAI success branch copy. -/
def openaiCopiedFiles (env : TTSEnv) : List String :=
  match env.outputPath with
  | some out => if env.copyOk then [jsReplaceWavExt out] else []
  | none => []

/-- generateTTS (src/improved-generate-tts.js lines 48-121): try OpenAI if
configured (module loaded and OPENAI_API_KEY set); on its failure, or when
unconfigured, the say stage; platform fallback last. -/
def generateTTS (env : TTSEnv) : ChainResult :=
  if env.openaiConfigured then
    if env.openaiOk then
      { ok := true
        tried := [Provider.openai]
        events := [TTSEv.writeFile env.mp3Path, TTSEv.play env.mp3Path env.silentPlay] ++
          openaiCopyEvents env
        files := env.mp3Path :: openaiCopiedFiles env }
    else sayStage env [Provider.openai] [TTSEv.logProviderError Provider.openai]
  else sayStage env [] []

/-- The providers configured in this environment, in declared order; the
platform fallback is always available as the last resort. -/
def configuredProviders (env : TTSEnv) : List Provider :=
  (if env.openaiConfigured then [Provider.openai] else []) ++
    (if env.sayAvailable then [Provider.say] else []) ++ [Provider.platform]

/-- Whether the underlying engine of a provider succeeds in this environment. -/
def providerOk (env : TTSEnv) : Provider → Bool
  | Provider.openai => env.openaiOk
  | Provider.say => env.sayOk
  | Provider.platform => env.platformEngineOk

/-- The working artifact path of the provider that succeeded: the unique mp3
path when the OpenAI branch returned, otherwise the unique wav path. -/
def chainWorkingPath (env : TTSEnv) : String :=
  if env.openaiConfigured ∧ env.openaiOk then env.mp3Path else env.wavPath

/-- The destination of a copy effect, if the effect is a copy. -/
def copyDest : TTSEv → Option String
  | TTSEv.copyFile _ d => some d
  | _ => none

/-- Observable effects of a playback-adapter call. -/
inductive PlayEv
  | logPlaying (p : String)
  | logWouldHavePlayed (p : String)
  | writeScript
  | launchPlayer (tool : String) (p : String)
deriving DecidableEq

/-- True exactly on the "Silent mode: Would have played ..." log effect. -/
def isWouldHaveLog : PlayEv → Bool
  | PlayEv.logWouldHavePlayed _ => true
  | _ => false

/-- playSound of src/improved-generate-tts.js lines 236-272.  The silent
parameter is accepted - and documented at lines 233-234 as "If true, don't
actually play the sound (just log it)" - but the body never consults it: the
function always logs that it is playing and always launches a platform
player process. -/
def playSound (os : HostOS) (audioPath : String) (silent : Bool) : List PlayEv :=
  PlayEv.logPlaying audioPath ::
    match os with
    | HostOS.win32 => [PlayEv.writeScript, PlayEv.launchPlayer "powershell-SoundPlayer" audioPath]
    | HostOS.darwin => [PlayEv.launchPlayer "afplay" audioPath]
    | HostOS.linux => [PlayEv.launchPlayer "mpg123-aplay-play" audioPath]

/-- playSound of the standalone driver (src/unnamed/part_000 lines 139-198):
this version does honor silent mode, logging "Would have played" and
launching nothing. -/
def playSoundStandalone (os : HostOS) (audioPath : String) (silent : Bool) : List PlayEv :=
  if silent then [PlayEv.logWouldHavePlayed audioPath]
  else
    PlayEv.logPlaying audioPath ::
      match os with
      | HostOS.win32 =>
          [PlayEv.writeScript, PlayEv.launchPlayer "powershell-SoundPlayer" audioPath]
      | HostOS.darwin => [PlayEv.launchPlayer "afplay" audioPath]
      | HostOS.linux => [PlayEv.launchPlayer "mpg123-aplay-play" audioPath]

/-- The silent argument that platformSpecificTTS of src/unnamed/part_000
passes to playSound on its three success paths (lines 79, 100 and 121):
the negation of the silentPlay parameter it itself received. -/
def standalonePlatformTTSPlaysWith (silentPlay : Bool) : Bool := !silentPlay

/-- The whitespace characters the JS regex class backslash-s matches (the
ones expressible here; the unicode additions never change word counts of
ASCII scripts). -/
def isJsSpace (c : Char) : Bool :=
  c == ' ' || c == '\t' || c == '\n' || c == '\r' || c == '\x0b' || c == '\x0c'

/-- Number of maximal whitespace runs in a character list. -/
def countSpaceRuns (l : List Char) : Nat :=
  (l.foldl
    (fun acc c =>
      if isJsSpace c then (if acc.2 then acc else (acc.1 + 1, true)) else (acc.1, false))
    ((0 : Nat), false)).1

/-- JS text.split(regex of one-or-more whitespace).length as used at
src/README.md line 163: one more than the number of maximal whitespace runs
(boundary runs contribute empty segments, exactly as in JS). -/
def jsWordCount (s : String) : Nat := 1 + countSpaceRuns s.data

/-- The punctuation class of src/README.md line 164. -/
def isPunctMark (c : Char) : Bool := c == '.' || c == ',' || c == '!' || c == '?' || c == ';'

/-- JS (text.match of the punctuation class, or empty).length. -/
def jsPunctCount (s : String) : Nat := (s.data.filter isPunctMark).length

/-- speechDuration of speakAndDo (src/README.md lines 162-169):
Math.max(3000, (wordCount / 3) * 1000 + punctuationCount * 300), computed in
JS floating point, modelled in the rationals. -/
def speechHoldDuration (s : String) : ℚ :=
  max 3000 ((jsWordCount s : ℚ) / 3 * 1000 + (jsPunctCount s : ℚ) * 300)

/-- Observable events of one speakAndDo call. -/
inductive SpeakEv
  | logSpeaking (t : String)
  | synthAttempt
  | synthOutcome (ok : Bool)
  | hold (d : ℚ)
  | invokeFollowup
  | logFollowupError
deriving DecidableEq

/-- speakAndDo (src/README.md lines 158-181): log, await synthesizeSpeech
(total - it catches internally and returns a boolean), hold for the computed
duration, then run the followup inside try/catch.  fn = none models a
non-function argument (skipped by the typeof guard at line 175); some b
models a function that raises iff b.  The second component records whether
any error escapes to the caller: never. -/
def speakAndDo (text : String) (synthOk : Bool) (fn : Option Bool) : List SpeakEv × Bool :=
  ([SpeakEv.logSpeaking text, SpeakEv.synthAttempt, SpeakEv.synthOutcome synthOk,
      SpeakEv.hold (speechHoldDuration text)] ++
    (match fn with
     | some fnRaises =>
         SpeakEv.invokeFollowup :: (if fnRaises then [SpeakEv.logFollowupError] else [])
     | none => []),
    false)

/-- Hex digit character of a value below 16, from the lowercase hex alphabet
used by Buffer.toString with base hex. -/
def hexDigit (n : Nat) : Char := "0123456789abcdef".data.getD n '0'

/-- crypto.randomBytes(4).toString of base hex: eight lowercase hex
characters, big-endian over the four random bytes, leading zeros kept.
r is the 32-bit value of the four bytes. -/
def hex8 (r : Nat) : List Char :=
  [hexDigit (r / 268435456 % 16), hexDigit (r / 16777216 % 16),
   hexDigit (r / 1048576 % 16), hexDigit (r / 65536 % 16),
   hexDigit (r / 4096 % 16), hexDigit (r / 256 % 16),
   hexDigit (r / 16 % 16), hexDigit (r % 16)]

/-- generateUniqueFilename (src/improved-generate-tts.js lines 35-39):
the timestamp and a 4-byte random component rendered as 8 hex characters. -/
def generateUniqueFilename (t r : Nat) (ext : String) : String :=
  "bot-tts-" ++ toString t ++ "-" ++ String.mk (hex8 r) ++ "." ++ ext

/-- Artifact name drawn by synthesizeSpeech in the main script
(src/README.md line 104): built from Date.now() alone.  The argument r
stands for the randomness available to the generation event; this source
line consumes none of it. -/
def readmeTtsName (t : Nat) (r : Nat) : String :=
  "bot-tts-" ++ toString t ++ ".mp3"

/-- fs.unlink: removes the file if present, otherwise raises (the boolean is
false when the call would throw ENOENT). -/
def fsUnlink (fs : Finset String) (p : String) : Finset String × Bool :=
  if p ∈ fs then (fs.erase p, true) else (fs, false)

/-- Cleanup site of synthesizeSpeech (src/README.md lines 141-146): the
fs.unlink sits inside try/catch and a failure is only logged.  Returns the
new filesystem, whether a deletion failure was logged, and whether an error
reached the caller (never). -/
def cleanupTempFile (fs : Finset String) (p : String) : Finset String × Bool × Bool :=
  ((fsUnlink fs p).1, !(fsUnlink fs p).2, false)

/-- clearOldTempFiles (src/unnamed/part_000 lines 290-307): removes every
temp file whose name starts with "bot-tts", ignoring per-file errors; the
boolean records whether an error reaches the caller (never). -/
def clearOldTempFiles (fs : Finset String) : Finset String × Bool :=
  (fs.filter (fun f => ¬ f.data.take 7 = "bot-tts".data), false)

/-- The two timestamps of keepMeetingAlive relevant to the monotonicity
invariant: the wall clock and the closure variable lastMajorActivity
(src/README.md lines 596-795). -/
structure ClockState where
  now : Int
  lastMajorActivity : Int
deriving DecidableEq

/-- Steps of the keep-alive session: the wall clock advances (Date.now() is
non-decreasing), or one of the five assignment sites of lastMajorActivity
executes (src/README.md lines 600, 625, 701, 743, 783), each storing the
current Date.now().  lastMajorActivity is a local variable of the
keepMeetingAlive closure, so no code outside these timer callbacks can
write it: these are all possible mutations. -/
inductive ClockStep : ClockState → ClockState → Prop
  | advance (s : ClockState) (d : Int) (hd : 0 ≤ d) :
      ClockStep s ⟨s.now + d, s.lastMajorActivity⟩
  | writeNow (s : ClockState) : ClockStep s ⟨s.now, s.now⟩

/-- Initial state: src/README.md line 600 initialises lastMajorActivity to
the current Date.now(). -/
def clockInit (t0 : Int) : ClockState := ⟨t0, t0⟩

/-- Browser-side observations a tier firing depends on. -/
structure KAEnv where
  alive : Bool
  chatVisible : Bool
  menuVisible : Bool
  peopleVisible : Bool
  meetElementFound : Bool
  panelVisible : Bool
deriving DecidableEq

/-- Mutable state of keepMeetingAlive read by the tier callbacks. -/
structure KAState where
  now : Int
  lastMajorActivity : Int
  keepAliveCounter : Nat
deriving DecidableEq

/-- Automation-surface actions a tier firing can perform. -/
inductive MAct
  | mouseMove
  | recoverySpeech
  | chatToggle
  | panelToggle
  | minorSpeech
  | majorSpeech
  | menuTouch
  | healthSpeech
  | peopleToggle
deriving DecidableEq

/-- checkNeedRecovery (src/README.md lines 603-627): when more than ten
minutes passed since lastMajorActivity, force an audio check-in, toggle the
chat button when visible (UI errors are caught), and store the current time. -/
def checkNeedRecovery (env : KAEnv) (s : KAState) : List MAct × KAState :=
  if 600000 < s.now - s.lastMajorActivity then
    (MAct.recoverySpeech :: (if env.chatVisible then [MAct.chatToggle] else []),
     { s with lastMajorActivity := s.now })
  else ([], s)

/-- Tier 1, micro-interactions every 30 s (src/README.md lines 630-679):
if still in the meeting, move the mouse, run checkNeedRecovery, bump the
counter and on every sixth firing toggle a neutral panel; if not in the
meeting, run checkNeedRecovery directly. -/
def tier1Fire (env : KAEnv) (s : KAState) : List MAct × KAState :=
  if env.alive then
    (MAct.mouseMove :: (checkNeedRecovery env s).1 ++
        (if (s.keepAliveCounter + 1) % 6 = 0 ∧ env.panelVisible
         then [MAct.panelToggle] else []),
     { (checkNeedRecovery env s).2 with keepAliveCounter := s.keepAliveCounter + 1 })
  else checkNeedRecovery env s

/-- Tier 2, minor audio every 2 min (src/README.md lines 682-706): if still
in the meeting, speak a short rotation message and store the current time;
no recovery-threshold check appears in this callback. -/
def tier2Fire (env : KAEnv) (s : KAState) : List MAct × KAState :=
  if env.alive then ([MAct.minorSpeech], { s with lastMajorActivity := s.now })
  else ([], s)

/-- Tier 3, major audio and UI every 5 min (src/README.md lines 709-749):
if still in the meeting, a long utterance via speakAndDo whose followup
touches the options menu and stores the current time; no recovery-threshold
check appears in this callback. -/
def tier3Fire (env : KAEnv) (s : KAState) : List MAct × KAState :=
  if env.alive then
    (MAct.majorSpeech :: (if env.menuVisible then [MAct.menuTouch] else []),
     { s with lastMajorActivity := s.now })
  else ([], s)

/-- Tier 4, health check every 8 min (src/README.md lines 752-792): only
when no longer detected in the meeting, look for any Meet element; if one is
found, force audio, toggle the People panel when visible and store the
current time; otherwise just log.  lastMajorActivity is never read here. -/
def tier4Fire (env : KAEnv) (s : KAState) : List MAct × KAState :=
  if env.alive then ([], s)
  else if env.meetElementFound then
    (MAct.healthSpeech :: (if env.peopleVisible then [MAct.peopleToggle] else []),
     { s with lastMajorActivity := s.now })
  else ([], s)

/-- One event-loop turn of an async tier callback: every await boundary in
the source starts a new turn, between which the callbacks of other timers
may run. -/
inductive TurnKind
  | speechTurn
  | uiTurn
  | pauseTurn
deriving DecidableEq

/-- Turns of the tier-1 recovery probe (checkNeedRecovery, src/README.md
lines 603-627): await synthesizeSpeech, await the chat-button visibility
probe, click, await a delay, click again. -/
def tier1ProbeTurns : List TurnKind :=
  [TurnKind.speechTurn, TurnKind.uiTurn, TurnKind.pauseTurn, TurnKind.uiTurn]

/-- Turns of the tier-2 audio action (src/README.md lines 682-706):
synthesizeSpeech awaits the provider call and the player process, then the
post-playback delay. -/
def tier2AudioTurns : List TurnKind := [TurnKind.speechTurn, TurnKind.pauseTurn]

/-- Scheduler state once the 30 s and the 120 s interval timers have both
come due in the same window (at t = 120000 ms both fire): the turns each
callback has already executed and the turns still pending. -/
structure KASched where
  t1done : List TurnKind
  t1rem : List TurnKind
  t2done : List TurnKind
  t2rem : List TurnKind
deriving DecidableEq

/-- Both callbacks enqueued, nothing run yet. -/
def kaInit : KASched := ⟨[], tier1ProbeTurns, [], tier2AudioTurns⟩

/-- The event loop runs the next pending turn of either callback.  The
source contains no lock of any kind, so both callbacks are always eligible;
only single turns are atomic. -/
inductive KAStep : KASched → KASched → Prop
  | run1 (s : KASched) (c : TurnKind) (rest : List TurnKind) (h : s.t1rem = c :: rest) :
      KAStep s ⟨s.t1done ++ [c], rest, s.t2done, s.t2rem⟩
  | run2 (s : KASched) (c : TurnKind) (rest : List TurnKind) (h : s.t2rem = c :: rest) :
      KAStep s ⟨s.t1done, s.t1rem, s.t2done ++ [c], rest⟩

/-- A callback's action is in flight: started but not finished. -/
def midFlight (done rem : List TurnKind) : Prop := done ≠ [] ∧ rem ≠ []

/-- C1: the provider chain tries providers strictly in declared priority
order (OpenAI, then say, then platform fallback); the chain reports failure
only after every configured provider was attempted and every one failed.
(Providers never raise: every attempt is a total function into a boolean,
mirroring the catch-and-log of the source.) -/
theorem generateTTS_chain_order_exhaustion (env : TTSEnv) :
    (generateTTS env).tried.Sublist [Provider.openai, Provider.say, Provider.platform] ∧
    (∀ p ∈ (generateTTS env).tried, p ∈ configuredProviders env) ∧
    ((generateTTS env).ok = false →
      ∀ p ∈ configuredProviders env, p ∈ (generateTTS env).tried ∧ providerOk env p = false) := by
  obtain ⟨os, oc, ook, sa, sok, pok, cok, sp, out, m, w⟩ := env
  cases oc <;> cases ook <;> cases sa <;> cases sok <;> cases pok <;>
    simp [generateTTS, sayStage, platformSpecificTTS, configuredProviders, providerOk]

/-- Witness for C1 at a concrete all-providers-fail environment. -/
theorem generateTTS_chain_order_exhaustion_witness :
    let env : TTSEnv :=
      { os := HostOS.linux, openaiConfigured := true, openaiOk := false,
        sayAvailable := true, sayOk := false, platformEngineOk := false,
        copyOk := true, silentPlay := true, outputPath := none,
        mp3Path := "t.mp3", wavPath := "t.wav" }
    (generateTTS env).tried.Sublist [Provider.openai, Provider.say, Provider.platform] ∧
      Provider.platform ∈ (generateTTS env).tried ∧ providerOk env Provider.platform = false := by
  intro env
  obtain ⟨h1, _, h3⟩ := generateTTS_chain_order_exhaustion env
  exact ⟨h1, h3 (by decide) Provider.platform (by decide)⟩

/-- C8 counterexample: the claim says the chain copies the working artifact
to the supplied destination.  At destination "greeting.wav" with a successful
OpenAI provider the chain copies to "greeting.mp3" instead (source line 78
rewrites the .wav suffix), and nothing is ever copied to "greeting.wav". -/
theorem generateTTS_copy_dest_counterexample :
    let env : TTSEnv :=
      { os := HostOS.linux, openaiConfigured := true, openaiOk := true,
        sayAvailable := false, sayOk := false, platformEngineOk := false,
        copyOk := true, silentPlay := true, outputPath := some "greeting.wav",
        mp3Path := "tmp-bot.mp3", wavPath := "tmp-bot.wav" }
    (generateTTS env).ok = true ∧
      "greeting.wav" ≠ chainWorkingPath env ∧
      TTSEv.copyFile "tmp-bot.mp3" "greeting.mp3" ∈ (generateTTS env).events ∧
      (∀ e ∈ (generateTTS env).events, copyDest e ≠ some "greeting.wav") ∧
      "greeting.wav" ∉ (generateTTS env).files := by
  decide

/-- C8 amended: when a destination is supplied and differs from the working
artifact path, after success the chain copies (never moves) the working
artifact to the destination - except that the OpenAI provider first rewrites
a trailing ".wav" of the destination to ".mp3"; a copy failure never changes
the overall result from success to failure, and the working artifact remains
valid at its original path (copy sources are always retained). -/
theorem generateTTS_copy_semantics (env : TTSEnv) (out : String)
    (hout : env.outputPath = some out)
    (hok : (generateTTS env).ok = true)
    (hdiff : out ≠ chainWorkingPath env) :
    (∀ b, (generateTTS { env with copyOk := b }).ok = true) ∧
    chainWorkingPath env ∈ (generateTTS env).files ∧
    TTSEv.copyFile (chainWorkingPath env)
        (if env.openaiConfigured ∧ env.openaiOk then jsReplaceWavExt out else out)
      ∈ (generateTTS env).events ∧
    (∀ src dst, TTSEv.copyFile src dst ∈ (generateTTS env).events →
      src ∈ (generateTTS env).files) := by
  obtain ⟨os, oc, ook, sa, sok, pok, cok, sp, op, m, w⟩ := env
  subst hout
  simp only [chainWorkingPath] at hdiff ⊢
  cases oc <;> cases ook <;> cases sa <;> cases sok <;> cases pok <;> cases cok <;>
    simp_all [generateTTS, sayStage, platformSpecificTTS, sayCopyEvents,
      sayCopiedFiles, openaiCopyEvents, openaiCopiedFiles]

/-- Witness for C8 at a concrete environment: node-say succeeds, destination
"out.wav" differs from the working path "tmp.wav"; the artifact is copied to
the destination and stays valid at its working path. -/
theorem generateTTS_copy_semantics_witness :
    let env : TTSEnv :=
      { os := HostOS.linux, openaiConfigured := false, openaiOk := false,
        sayAvailable := true, sayOk := true, platformEngineOk := false,
        copyOk := true, silentPlay := true, outputPath := some "out.wav",
        mp3Path := "tmp.mp3", wavPath := "tmp.wav" }
    TTSEv.copyFile "tmp.wav" "out.wav" ∈ (generateTTS env).events ∧
      "tmp.wav" ∈ (generateTTS env).files := by
  intro env
  obtain ⟨-, h2, h3, -⟩ :=
    generateTTS_copy_semantics env "out.wav" rfl (by decide) (by decide)
  refine ⟨?_, h2⟩
  simpa [chainWorkingPath] using h3

/-- C3 (code bug evidence): playSound of src/improved-generate-tts.js,
invoked with silent=true, behaves exactly as with silent=false - it logs
"Playing audio", launches a player process and never emits the
"would have played" log its own doc comment promises.  The standalone
playSound does honor silent mode, but the standalone platformSpecificTTS
passes it the negated flag. -/
theorem playSound_ignores_silent :
    (∀ o : HostOS, ∀ p : String, playSound o p true = playSound o p false) ∧
    PlayEv.launchPlayer "powershell-SoundPlayer" "a.mp3" ∈ playSound HostOS.win32 "a.mp3" true ∧
    (playSound HostOS.win32 "a.mp3" true).all (fun e => !(isWouldHaveLog e)) = true ∧
    playSoundStandalone HostOS.win32 "a.mp3" true = [PlayEv.logWouldHavePlayed "a.mp3"] ∧
    standalonePlatformTTSPlaysWith true = false :=
  ⟨fun _ _ => rfl, by decide, by decide, by decide, by decide⟩

/-- C4: the hold duration equals max(3000 ms, wordCount divided by 3 words
per second times 1000, plus 300 ms per punctuation mark); it is monotone in
the word count at equal punctuation counts and never below the floor. -/
theorem speechHoldDuration_monotone_floor (T1 T2 : String)
    (hw : jsWordCount T1 < jsWordCount T2)
    (hp : jsPunctCount T1 = jsPunctCount T2) :
    speechHoldDuration T1 ≤ speechHoldDuration T2 ∧
    (∀ T : String, 3000 ≤ speechHoldDuration T) ∧
    (∀ T : String, speechHoldDuration T =
      max 3000 ((jsWordCount T : ℚ) / 3 * 1000 + (jsPunctCount T : ℚ) * 300)) := by
  refine ⟨?_, fun T => le_max_left _ _, fun T => rfl⟩
  have h : (jsWordCount T1 : ℚ) ≤ (jsWordCount T2 : ℚ) := by exact_mod_cast hw.le
  unfold speechHoldDuration
  apply max_le_max le_rfl
  rw [hp]
  linarith

/-- Witness for C4 at two concrete texts of 1 and 3 words, one period each. -/
theorem speechHoldDuration_monotone_floor_witness :
    speechHoldDuration "Hi." ≤ speechHoldDuration "Hi there Bob." ∧
      3000 ≤ speechHoldDuration "Hi." := by
  obtain ⟨h1, h2, -⟩ :=
    speechHoldDuration_monotone_floor "Hi." "Hi there Bob." (by decide) (by decide)
  exact ⟨h1, h2 "Hi."⟩

/-- C5: speakAndDo invokes the followup exactly once whether synthesis
succeeded or failed; an error the followup raises is logged but never
propagated to the caller. -/
theorem speakAndDo_followup_once (text : String) (synthOk fnRaises : Bool) :
    (speakAndDo text synthOk (some fnRaises)).1.count SpeakEv.invokeFollowup = 1 ∧
    (fnRaises = true →
      SpeakEv.logFollowupError ∈ (speakAndDo text synthOk (some fnRaises)).1) ∧
    (speakAndDo text synthOk (some fnRaises)).2 = false := by
  cases fnRaises <;> simp [speakAndDo]

/-- Witness for C5: synthesis failed and the followup raised - still exactly
one invocation, the error logged, nothing propagated. -/
theorem speakAndDo_followup_once_witness :
    (speakAndDo "Hello." false (some true)).1.count SpeakEv.invokeFollowup = 1 ∧
      SpeakEv.logFollowupError ∈ (speakAndDo "Hello." false (some true)).1 ∧
      (speakAndDo "Hello." false (some true)).2 = false := by
  obtain ⟨h1, h2, h3⟩ := speakAndDo_followup_once "Hello." false true
  exact ⟨h1, h2 rfl, h3⟩

/-- C9 counterexample: the main script's synthesizeSpeech names its artifact
from the timestamp alone, so two generation events in the same millisecond
collide however distinct their available randomness is. -/
theorem readmeTtsName_collision_counterexample :
    readmeTtsName 1700000000000 5 = readmeTtsName 1700000000000 9 ∧ (5 : Nat) ≠ 9 :=
  ⟨rfl, by decide⟩

theorem strDataAppend (a b : String) : (a ++ b).data = a.data ++ b.data := by
  cases a; cases b; rfl

theorem strDataMk (l : List Char) : (String.mk l).data = l := rfl

theorem hexDigit_injOn : ∀ a, a < 16 → ∀ b, b < 16 → hexDigit a = hexDigit b → a = b := by
  decide

theorem hex8_inj (r1 r2 : Nat) (h1 : r1 < 4294967296) (h2 : r2 < 4294967296)
    (h : hex8 r1 = hex8 r2) : r1 = r2 := by
  simp only [hex8, List.cons.injEq, and_true] at h
  obtain ⟨e1, e2, e3, e4, e5, e6, e7, e8⟩ := h
  have d1 := hexDigit_injOn _ (Nat.mod_lt _ (by norm_num)) _ (Nat.mod_lt _ (by norm_num)) e1
  have d2 := hexDigit_injOn _ (Nat.mod_lt _ (by norm_num)) _ (Nat.mod_lt _ (by norm_num)) e2
  have d3 := hexDigit_injOn _ (Nat.mod_lt _ (by norm_num)) _ (Nat.mod_lt _ (by norm_num)) e3
  have d4 := hexDigit_injOn _ (Nat.mod_lt _ (by norm_num)) _ (Nat.mod_lt _ (by norm_num)) e4
  have d5 := hexDigit_injOn _ (Nat.mod_lt _ (by norm_num)) _ (Nat.mod_lt _ (by norm_num)) e5
  have d6 := hexDigit_injOn _ (Nat.mod_lt _ (by norm_num)) _ (Nat.mod_lt _ (by norm_num)) e6
  have d7 := hexDigit_injOn _ (Nat.mod_lt _ (by norm_num)) _ (Nat.mod_lt _ (by norm_num)) e7
  have d8 := hexDigit_injOn _ (Nat.mod_lt _ (by norm_num)) _ (Nat.mod_lt _ (by norm_num)) e8
  omega

/-- C9 amended: names produced by generateUniqueFilename (a timestamp plus a
4-byte random component in 8 hex characters) are pairwise distinct whenever
the random components differ, even across differing timestamps. -/
theorem generateUniqueFilename_distinct (t1 t2 r1 r2 : Nat) (ext : String)
    (hr1 : r1 < 4294967296) (hr2 : r2 < 4294967296) (hne : r1 ≠ r2) :
    generateUniqueFilename t1 r1 ext ≠ generateUniqueFilename t2 r2 ext := by
  intro h
  apply hne
  apply hex8_inj r1 r2 hr1 hr2
  have hd := congrArg String.data h
  simp only [generateUniqueFilename, strDataAppend, strDataMk] at hd
  have hrev := congrArg List.reverse hd
  simp only [List.reverse_append] at hrev
  have p1 := (List.append_inj hrev rfl).2
  have p2 := (List.append_inj p1 rfl).2
  have p3 := (List.append_inj p2 (by simp [hex8])).1
  exact List.reverse_injective p3

/-- Witness for C9 amended at a shared timestamp and random values 0 and 1. -/
theorem generateUniqueFilename_distinct_witness :
    generateUniqueFilename 1700000000000 0 "wav" ≠ generateUniqueFilename 1700000000000 1 "wav" :=
  generateUniqueFilename_distinct 1700000000000 1700000000000 0 1 "wav"
    (by norm_num) (by norm_num) (by norm_num)

/-- C10: the cleanup path is idempotent and never raises: invoking it again
on the already-deleted artifact leaves the filesystem unchanged and raises
nothing (fs.unlink's failure is caught and only logged); the startup sweep
clearOldTempFiles is likewise idempotent and never raises. -/
theorem cleanup_idempotent_no_raise (fs : Finset String) (p : String) :
    (cleanupTempFile (cleanupTempFile fs p).1 p).1 = (cleanupTempFile fs p).1 ∧
    (cleanupTempFile (cleanupTempFile fs p).1 p).2.2 = false ∧
    (cleanupTempFile fs p).2.2 = false ∧
    p ∉ (cleanupTempFile fs p).1 ∧
    (clearOldTempFiles (clearOldTempFiles fs).1).1 = (clearOldTempFiles fs).1 ∧
    (clearOldTempFiles fs).2 = false := by
  by_cases hp : p ∈ fs <;>
    simp [cleanupTempFile, fsUnlink, hp, clearOldTempFiles, Finset.filter_filter]

/-- Invariant of the keep-alive clock: lastMajorActivity never exceeds the
current clock, since every write stores the then-current Date.now() and the
clock only advances. -/
theorem clockStep_inv (t0 : Int) (s : ClockState)
    (h : Relation.ReflTransGen ClockStep (clockInit t0) s) :
    s.lastMajorActivity ≤ s.now := by
  induction h with
  | refl => exact le_refl t0
  | tail _ st ih =>
      cases st with
      | advance d hd => simp only [ClockState.lastMajorActivity] at *; omega
      | writeNow => exact le_refl _

/-- C7: along every execution of keepMeetingAlive, lastMajorActivity is
monotonically non-decreasing: a clock advance leaves it unchanged, and each
of the five assignment sites stores the current clock, which is at least the
previously stored value; no step outside these exists, since the variable is
local to the keepMeetingAlive closure. -/
theorem lastMajorActivity_monotone (t0 : Int) (s s2 : ClockState)
    (hreach : Relation.ReflTransGen ClockStep (clockInit t0) s)
    (hstep : ClockStep s s2) :
    s.lastMajorActivity ≤ s2.lastMajorActivity := by
  cases hstep with
  | advance d hd => exact le_refl _
  | writeNow => exact clockStep_inv t0 s hreach

/-- Witness for C7: from start time 0, advance the clock by 7 ms, then run
an assignment site; the stored value rises from 0 to 7. -/
theorem lastMajorActivity_monotone_witness :
    (⟨7, 0⟩ : ClockState).lastMajorActivity ≤ (⟨7, 7⟩ : ClockState).lastMajorActivity := by
  have hadv : ClockStep (clockInit 0) ⟨7, 0⟩ := by
    have h := ClockStep.advance (clockInit 0) 7 (by norm_num)
    simpa [clockInit] using h
  exact lastMajorActivity_monotone 0 ⟨7, 0⟩ ⟨7, 7⟩
    (Relation.ReflTransGen.single hadv) (ClockStep.writeNow ⟨7, 0⟩)

/-- C6 counterexample: a tier-2 firing that observes more than ten minutes
since lastMajorActivity triggers no recovery probe at all (neither the audio
check-in nor the chat-button touch of checkNeedRecovery): only tier 1 calls
checkNeedRecovery. -/
theorem tier2_no_threshold_probe_counterexample :
    let env : KAEnv :=
      { alive := true, chatVisible := true, menuVisible := true,
        peopleVisible := true, meetElementFound := true, panelVisible := true }
    let s : KAState := { now := 700001, lastMajorActivity := 0, keepAliveCounter := 0 }
    600000 < s.now - s.lastMajorActivity ∧
      MAct.recoverySpeech ∉ (tier2Fire env s).1 ∧
      MAct.chatToggle ∉ (tier2Fire env s).1 := by
  decide

/-- C6 amended: only tier 1 consults the recovery threshold.  When a firing
observes more than ten minutes since lastMajorActivity, tier 1 triggers the
recovery probe (the forced audio check-in, in both liveness branches), while
the actions of tiers 2, 3 and 4 contain no recovery probe and do not depend
on lastMajorActivity at all. -/
theorem only_tier1_checks_recovery (env : KAEnv) (s : KAState)
    (h : 600000 < s.now - s.lastMajorActivity) :
    MAct.recoverySpeech ∈ (tier1Fire env s).1 ∧
    MAct.recoverySpeech ∉ (tier2Fire env s).1 ∧
    MAct.recoverySpeech ∉ (tier3Fire env s).1 ∧
    MAct.recoverySpeech ∉ (tier4Fire env s).1 ∧
    (∀ l : Int, (tier2Fire env { s with lastMajorActivity := l }).1 = (tier2Fire env s).1) ∧
    (∀ l : Int, (tier3Fire env { s with lastMajorActivity := l }).1 = (tier3Fire env s).1) ∧
    (∀ l : Int, (tier4Fire env { s with lastMajorActivity := l }).1 = (tier4Fire env s).1) := by
  obtain ⟨al, cv, mv, pv, mf, plv⟩ := env
  cases al <;> cases cv <;> cases mv <;> cases pv <;> cases mf <;> cases plv <;>
    simp_all [tier1Fire, tier2Fire, tier3Fire, tier4Fire, checkNeedRecovery]

/-- Witness for C6 amended at a concrete overdue state. -/
theorem only_tier1_checks_recovery_witness :
    let env : KAEnv :=
      { alive := false, chatVisible := false, menuVisible := false,
        peopleVisible := false, meetElementFound := false, panelVisible := false }
    let s : KAState := { now := 900000, lastMajorActivity := 100, keepAliveCounter := 3 }
    MAct.recoverySpeech ∈ (tier1Fire env s).1 ∧
      MAct.recoverySpeech ∉ (tier2Fire env s).1 := by
  intro env s
  obtain ⟨h1, h2, -⟩ := only_tier1_checks_recovery env s (by decide)
  exact ⟨h1, h2⟩

/-- After one turn of each callback both are mid-flight: run the first turn
of the tier-1 recovery probe, then the first turn of the tier-2 audio
action. -/
theorem ka_overlap_reachable :
    Relation.ReflTransGen KAStep kaInit
      ⟨[TurnKind.speechTurn], [TurnKind.uiTurn, TurnKind.pauseTurn, TurnKind.uiTurn],
        [TurnKind.speechTurn], [TurnKind.pauseTurn]⟩ := by
  have s1 : KAStep kaInit
      ⟨[TurnKind.speechTurn], [TurnKind.uiTurn, TurnKind.pauseTurn, TurnKind.uiTurn],
        [], tier2AudioTurns⟩ :=
    KAStep.run1 kaInit TurnKind.speechTurn
      [TurnKind.uiTurn, TurnKind.pauseTurn, TurnKind.uiTurn] rfl
  have s2 : KAStep
      ⟨[TurnKind.speechTurn], [TurnKind.uiTurn, TurnKind.pauseTurn, TurnKind.uiTurn],
        [], tier2AudioTurns⟩
      ⟨[TurnKind.speechTurn], [TurnKind.uiTurn, TurnKind.pauseTurn, TurnKind.uiTurn],
        [TurnKind.speechTurn], [TurnKind.pauseTurn]⟩ :=
    KAStep.run2 _ TurnKind.speechTurn [TurnKind.pauseTurn] rfl
  exact Relation.ReflTransGen.head s1 (Relation.ReflTransGen.single s2)

/-- C2 amended: keepMeetingAlive contains no per-session action lock; tier
callbacks interleave at await boundaries, so a scheduler state is reachable
in which the tier-1 recovery probe and the tier-2 audio action are both in
flight at the same time.  Only single event-loop turns are atomic. -/
theorem ka_no_lock_overlap_possible :
    ∃ s : KASched, Relation.ReflTransGen KAStep kaInit s ∧
      midFlight s.t1done s.t1rem ∧ midFlight s.t2done s.t2rem := by
  refine ⟨_, ka_overlap_reachable, ?_, ?_⟩ <;> exact ⟨by decide, by decide⟩

/-- C2 counterexample: the claim that recovery and keep-alive actions of two
tiers never overlap in time is false: a state with both callbacks mid-flight
is reachable from the co-firing window. -/
theorem ka_serialization_counterexample :
    ¬ (∀ s : KASched, Relation.ReflTransGen KAStep kaInit s →
        ¬ (midFlight s.t1done s.t1rem ∧ midFlight s.t2done s.t2rem)) := by
  intro hall
  exact hall _ ka_overlap_reachable ⟨⟨by decide, by decide⟩, ⟨by decide, by decide⟩⟩
